import Mathlib

/-!
Shallow embedding of the LlamaIndex-CustomLLM repository
(src/config.py, src/rag_pipeline.py, src/app.py).

The repository is a thin wrapper around an external RAG framework:
all external calls (directory reading, index construction over embeddings,
query-engine execution, node insertion) are modelled as fallible oracles
collected in `ExtEnv`; each pipeline operation returns its result, the new
pipeline state, and a trace of external events, so that claims about
"no network call attempted" and "no nodes split or inserted" are statable.
-/

namespace LlamaRag

/-- A Python exception value, identified by its message. -/
structure PyErr where
  msg : String
deriving DecidableEq

/-- A document: raw text (as a token sequence) plus source metadata,
produced by the external loader. -/
structure Document where
  tokens : List String
  source : String
deriving DecidableEq

/-- A chunk (node) produced by the node splitter: a bounded slice of a
document's tokens, carrying the document's source metadata. -/
structure Node where
  tokens : List String
  source : String
deriving DecidableEq

/-- Modelled from the spec: the external framework's node splitter
(`SimpleNodeParser`, not code of this repository) produces bounded-size
slices of the token sequence with a configurable overlap between
consecutive chunks; a document whose length is at most the chunk size
yields a single chunk.  The fuel argument bounds the recursion; it is
instantiated with the token-list length, which always suffices. -/
def splitTokensGo (chunkSize step : Nat) : Nat → List String → List (List String)
  | 0, toks => [toks]
  | fuel + 1, toks =>
    if toks.length ≤ chunkSize then [toks]
    else toks.take chunkSize :: splitTokensGo chunkSize step fuel (toks.drop step)

/-- Modelled from the spec: splitting one document's tokens into chunks of
at most `chunkSize` tokens, consecutive chunks overlapping by
`chunkOverlap` tokens. -/
def splitTokens (chunkSize chunkOverlap : Nat) (toks : List String) : List (List String) :=
  splitTokensGo chunkSize (chunkSize - chunkOverlap) toks.length toks

/-- Modelled from the spec: `parser.get_nodes_from_documents` splits each
document independently and concatenates the resulting chunk lists in
document order. -/
def get_nodes_from_documents (chunkSize chunkOverlap : Nat) (docs : List Document) :
    List Node :=
  (docs.map (fun d => (splitTokens chunkSize chunkOverlap d.tokens).map
    (fun c => Node.mk c d.source))).flatten

/-- The process environment (`os.environ`): variable-name/value pairs,
later entries shadowing earlier ones. -/
abbrev EnvMap := List (String × String)

/-- `os.getenv(key, dflt)` over an `EnvMap`. -/
def envGet (env : EnvMap) (key dflt : String) : String :=
  ((env.find? (fun kv => kv.1 == key)).map Prod.snd).getD dflt

/-- The `Settings` class of src/config.py: one field per class attribute,
holding the value computed when the class body runs at import time.
`TEMPERATURE` and `TOP_P` are the literals 0.7 and 0.95, represented as
rationals; no arithmetic is ever performed on them. -/
structure SettingsT where
  GEMINI_API_KEY : String
  MODEL_NAME : String
  EMBEDDING_MODEL : String
  TEMPERATURE : ℚ
  MAX_TOKENS : Nat
  TOP_P : ℚ
  TOP_K : Nat
  APP_NAME : String
  DEBUG : Bool
  CHUNK_SIZE : Nat
  CHUNK_OVERLAP : Nat
  RETRIEVAL_TOP_K : Nat
  SAFETY_SETTINGS : List (String × String)
deriving DecidableEq

/-- Import-time initialization of src/config.py: every environment read
happens here, once, against the environment snapshot passed in; all other
fields are literals from the class body. -/
def mkSettings (env : EnvMap) : SettingsT :=
  { GEMINI_API_KEY := envGet env "GEMINI_API_KEY" ""
    MODEL_NAME := "gemini-pro"
    EMBEDDING_MODEL := "models/embedding-001"
    TEMPERATURE := 7 / 10
    MAX_TOKENS := 500
    TOP_P := 95 / 100
    TOP_K := 40
    APP_NAME := "LlamaIndex Custom LLM with Gemini"
    DEBUG := (envGet env "DEBUG" "False").toLower == "true"
    CHUNK_SIZE := 1024
    CHUNK_OVERLAP := 20
    RETRIEVAL_TOP_K := 3
    SAFETY_SETTINGS := [("HARM_CATEGORY_HARASSMENT", "BLOCK_MEDIUM_AND_ABOVE"),
                        ("HARM_CATEGORY_HATE_SPEECH", "BLOCK_MEDIUM_AND_ABOVE")] }

/-- A running process: the mutable environment together with the settings
instance constructed at startup (`settings = Settings()`). -/
structure Proc where
  env : EnvMap
  settings : SettingsT
deriving DecidableEq

/-- Process startup: read the environment once and build the settings. -/
def startup (env : EnvMap) : Proc := ⟨env, mkSettings env⟩

/-- Mutating the process environment after startup (e.g. `os.environ[k] = v`):
the stored settings instance is not re-derived. -/
def setEnvVar (p : Proc) (key val : String) : Proc :=
  { p with env := (key, val) :: p.env }

/-- A whole sequence of environment mutations after startup. -/
def applyEnvChanges (p : Proc) (changes : List (String × String)) : Proc :=
  changes.foldl (fun q kv => setEnvVar q kv.1 kv.2) p

/-- The Gemini LLM client constructed in `RAGPipeline.__init__`. -/
structure LLMClient where
  model : String
  temperature : ℚ
  top_p : ℚ
  top_k : Nat
deriving DecidableEq

/-- The Gemini embedding client constructed in `RAGPipeline.__init__`. -/
structure EmbedClient where
  model_name : String
deriving DecidableEq

/-- The query engine produced by `index.as_query_engine(llm=..., similarity_top_k=...)`:
it is bound to the index it was built from (by reference), the LLM client,
and the retrieval top-k. The index itself is an external structure we refer
to only by an abstract reference (a `Nat`). -/
structure Engine where
  indexRef : Nat
  llm : LLMClient
  similarity_top_k : Nat
deriving DecidableEq

/-- A response object returned by the external query engine. -/
structure Response where
  text : String
deriving DecidableEq

/-- The fields of a `RAGPipeline` object. -/
structure PipelineState where
  llm : LLMClient
  embed_model : EmbedClient
  index : Option Nat
  query_engine : Option Engine
deriving DecidableEq

/-- Observable external events of one pipeline operation, in order. -/
inductive Event where
  | splitDocs (numDocs numNodes : Nat)
  | proposeIndex (numNodes : Nat)
  | engineCall (queryText : String)
  | insertCall (indexRef numNodes : Nat)
  | logInfo (msg : String)
  | logError (msg : String)
deriving DecidableEq

/-- Oracles for the external framework and provider APIs: the directory
reader, the vector-index builder (which performs the embedding calls),
the query-engine constructor (`as_query_engine`, a separate call that can
itself raise after the index has already been assigned), the query engine
(which performs the completion call), and in-place node insertion into an
existing index.  Each may fail with a Python exception.  A successful
`as_query_engine` call returns the engine bound to the given index with
the given arguments, so the oracle only decides success or failure. -/
structure ExtEnv where
  readDir : String → Except PyErr (List Document)
  buildIndex : List Node → Except PyErr Nat
  asQueryEngine : Engine → Except PyErr Unit
  engineQuery : Engine → String → Except PyErr Response
  insertNodes : Nat → List Node → Except PyErr Unit

/-- `RAGPipeline.__init__`: builds the two clients from settings and leaves
both the index and the query engine unset. -/
def RAGPipeline.init (s : SettingsT) : PipelineState :=
  { llm := { model := s.MODEL_NAME, temperature := s.TEMPERATURE,
             top_p := s.TOP_P, top_k := s.TOP_K }
    embed_model := { model_name := s.EMBEDDING_MODEL }
    index := none
    query_engine := none }

/-- The loop body of `RAGPipeline.load_documents`: for every path, try the
external reader; on success extend the accumulator and log at info level,
on failure log the error and continue with the remaining paths. -/
def loadLoop (env : ExtEnv) : List String → List Document × List Event
  | [] => ([], [])
  | path :: rest =>
    match env.readDir path with
    | Except.ok docs =>
      let r := loadLoop env rest
      (docs ++ r.1, Event.logInfo ("Loaded documents from " ++ path) :: r.2)
    | Except.error e =>
      let r := loadLoop env rest
      (r.1, Event.logError ("Error loading documents from " ++ path ++ ": " ++ e.msg) :: r.2)

/-- `RAGPipeline.load_documents`: accumulates documents over all paths and
returns them; the pipeline fields are neither read nor written. Every
iteration's body is guarded by try/except, so the method itself never
raises: its embedding returns a plain pair, with no error channel. -/
def RAGPipeline.load_documents (env : ExtEnv) (st : PipelineState) (paths : List String) :
    List Document × PipelineState × List Event :=
  let r := loadLoop env paths
  (r.1, st, r.2)

/-- `RAGPipeline.create_index`: split the documents with the configured
chunk size and overlap, hand the resulting nodes to the external index
builder (`VectorStoreIndex(...)`, assigned to `self.index`), then build a
query engine from that index (`self.index.as_query_engine(...)`, a second
and separately fallible external call, assigned to `self.query_engine`).
Any failure is logged and re-raised.  The two assignments run one after
the other: when the index build fails the state is wholly unchanged, but
when the index build succeeds and `as_query_engine` then raises, the
index field has already been reassigned while the query-engine field
keeps its previous value. -/
def RAGPipeline.create_index (env : ExtEnv) (s : SettingsT) (st : PipelineState)
    (documents : List Document) : Except PyErr Nat × PipelineState × List Event :=
  let nodes := get_nodes_from_documents s.CHUNK_SIZE s.CHUNK_OVERLAP documents
  match env.buildIndex nodes with
  | Except.error e =>
    (Except.error e, st,
     [Event.splitDocs documents.length nodes.length,
      Event.proposeIndex nodes.length,
      Event.logError ("Error creating index: " ++ e.msg)])
  | Except.ok ref =>
    let engine : Engine :=
      { indexRef := ref, llm := st.llm, similarity_top_k := s.RETRIEVAL_TOP_K }
    match env.asQueryEngine engine with
    | Except.error e =>
      (Except.error e,
       { st with index := some ref },
       [Event.splitDocs documents.length nodes.length,
        Event.proposeIndex nodes.length,
        Event.logError ("Error creating index: " ++ e.msg)])
    | Except.ok _ =>
      (Except.ok ref,
       { st with
         index := some ref
         query_engine := some engine },
       [Event.splitDocs documents.length nodes.length,
        Event.proposeIndex nodes.length,
        Event.logInfo "Created index"])

/-- The message of the ValueError raised by `query` before initialization. -/
def queryEngineNotInitMsg : String :=
  "Query engine not initialized. Load documents and create index first."

/-- The message of the ValueError raised by `add_documents` before
initialization. -/
def indexNotInitMsg : String := "Index not initialized"

/-- `RAGPipeline.query`: raises the uninitialized ValueError when no query
engine exists (before any try block, so nothing external runs and nothing
is logged); otherwise delegates to the engine, logging and re-raising any
failure.  It assigns no pipeline field. -/
def RAGPipeline.query (env : ExtEnv) (st : PipelineState) (query_text : String) :
    Except PyErr Response × PipelineState × List Event :=
  match st.query_engine with
  | none => (Except.error ⟨queryEngineNotInitMsg⟩, st, [])
  | some eng =>
    match env.engineQuery eng query_text with
    | Except.ok r =>
      (Except.ok r, st,
       [Event.engineCall query_text, Event.logInfo "Query executed with Gemini"])
    | Except.error e =>
      (Except.error e, st,
       [Event.engineCall query_text,
        Event.logError ("Error executing query with Gemini: " ++ e.msg)])

/-- `RAGPipeline.add_documents`: raises the uninitialized ValueError when no
index exists (before the try block: no splitting, no insertion); otherwise
splits the new documents with the configured chunk size and overlap and
inserts the nodes into the existing index in place, logging and re-raising
any failure. -/
def RAGPipeline.add_documents (env : ExtEnv) (s : SettingsT) (st : PipelineState)
    (documents : List Document) : Except PyErr Unit × PipelineState × List Event :=
  match st.index with
  | none => (Except.error ⟨indexNotInitMsg⟩, st, [])
  | some ref =>
    let nodes := get_nodes_from_documents s.CHUNK_SIZE s.CHUNK_OVERLAP documents
    match env.insertNodes ref nodes with
    | Except.ok _ =>
      (Except.ok (), st,
       [Event.splitDocs documents.length nodes.length,
        Event.insertCall ref nodes.length,
        Event.logInfo "Added new nodes to index"])
    | Except.error e =>
      (Except.error e, st,
       [Event.splitDocs documents.length nodes.length,
        Event.insertCall ref nodes.length,
        Event.logError ("Error adding documents: " ++ e.msg)])

/-- True of events that are error-level log records. -/
def Event.isErrLog : Event → Bool
  | .logError _ => true
  | _ => false

/-- True of events that invoke the external query engine (a network call). -/
def Event.isEngineCall : Event → Bool
  | .engineCall _ => true
  | _ => false

/-- True of events that insert nodes into the external index. -/
def Event.isInsert : Event → Bool
  | .insertCall _ _ => true
  | _ => false

/-- True of events that split documents into nodes. -/
def Event.isSplit : Event → Bool
  | .splitDocs _ _ => true
  | _ => false

/-- Number of error-level log records in a trace. -/
def errorLogCount (evs : List Event) : Nat := (evs.filter Event.isErrLog).length

/-- The chunk counts proposed to the external index builder in a trace. -/
def proposedNodeCounts (evs : List Event) : List Nat :=
  evs.filterMap (fun ev => match ev with | Event.proposeIndex n => some n | _ => none)

/-- The documents a given reader oracle successfully yields for a path. -/
def readOk (env : ExtEnv) (p : String) : Option (List Document) :=
  match env.readDir p with
  | Except.ok ds => some ds
  | Except.error _ => none

/-- True when reading a path fails. -/
def readFails (env : ExtEnv) (p : String) : Bool := (readOk env p).isNone

/-- All documents from the succeeding paths, in path order. -/
def okDocs (env : ExtEnv) (paths : List String) : List Document :=
  (paths.filterMap (readOk env)).flatten

/-- The pipeline's engine/index consistency invariant: whenever a query
engine is set, an index is set, the engine is bound to that very index,
and its retrieval top-k is the configured one. -/
def engineInvB (s : SettingsT) (st : PipelineState) : Bool :=
  match st.query_engine with
  | none => true
  | some eng =>
    decide (st.index = some eng.indexRef) &&
    decide (eng.similarity_top_k = s.RETRIEVAL_TOP_K)

/-- A provider environment whose external calls all succeed. -/
def demoEnv : ExtEnv :=
  { readDir := fun p => Except.ok [⟨["tok"], p⟩]
    buildIndex := fun ns => Except.ok ns.length
    asQueryEngine := fun _ => Except.ok ()
    engineQuery := fun _ q => Except.ok ⟨q⟩
    insertNodes := fun _ _ => Except.ok () }

/-- A provider environment whose external calls all fail. -/
def failEnv : ExtEnv :=
  { readDir := fun _ => Except.error ⟨"read boom"⟩
    buildIndex := fun _ => Except.error ⟨"embed boom"⟩
    asQueryEngine := fun _ => Except.error ⟨"engine boom"⟩
    engineQuery := fun _ _ => Except.error ⟨"llm boom"⟩
    insertNodes := fun _ _ => Except.error ⟨"insert boom"⟩ }

/-- A provider environment in which the index build succeeds but the
subsequent query-engine construction raises. -/
def engineFailEnv : ExtEnv :=
  { demoEnv with
    asQueryEngine := fun _ => Except.error ⟨"engine boom"⟩ }

/-- A reader oracle failing exactly on the path "bad", otherwise yielding
one document per path. -/
def partialEnv : ExtEnv :=
  { demoEnv with
    readDir :=
      fun p =>
        if p == "bad" then Except.error ⟨"read boom"⟩
        else Except.ok [⟨["tok"], p⟩] }

/-- The freshly initialized pipeline state, under empty-environment settings. -/
def freshState : PipelineState := RAGPipeline.init (mkSettings [])

/-- A state as left by a successful create_index under empty-environment
settings. -/
def readyState : PipelineState :=
  { freshState with
    index := some 0
    query_engine := some ⟨0, freshState.llm, 3⟩ }

lemma loadLoop_docs (env : ExtEnv) (paths : List String) :
    (loadLoop env paths).1 = okDocs env paths := by
  induction paths with
  | nil => rfl
  | cons p rest ih =>
    cases h : env.readDir p with
    | ok ds =>
      simp only [loadLoop, h, okDocs, List.filterMap_cons, readOk]
      simp only [okDocs] at ih
      simp [ih]
    | error e =>
      simp only [loadLoop, h, okDocs, List.filterMap_cons, readOk]
      simp only [okDocs] at ih
      simp [ih]

lemma loadLoop_errs (env : ExtEnv) (paths : List String) :
    errorLogCount (loadLoop env paths).2 =
      (paths.filter (fun p => readFails env p)).length := by
  induction paths with
  | nil => rfl
  | cons p rest ih =>
    cases h : env.readDir p with
    | ok ds =>
      have hf : readFails env p = false := by simp [readFails, readOk, h]
      simp only [loadLoop, h, List.filter_cons, hf]
      simpa [errorLogCount, Event.isErrLog] using ih
    | error e =>
      have hf : readFails env p = true := by simp [readFails, readOk, h]
      simp only [loadLoop, h, List.filter_cons, hf]
      simpa [errorLogCount, Event.isErrLog] using ih

lemma create_index_proposes (env : ExtEnv) (s : SettingsT) (st : PipelineState)
    (docs : List Document) :
    proposedNodeCounts (RAGPipeline.create_index env s st docs).2.2 =
      [(get_nodes_from_documents s.CHUNK_SIZE s.CHUNK_OVERLAP docs).length] := by
  unfold RAGPipeline.create_index
  cases hb : env.buildIndex (get_nodes_from_documents s.CHUNK_SIZE
      s.CHUNK_OVERLAP docs) with
  | error e => simp [hb, proposedNodeCounts]
  | ok ref =>
    cases hq : env.asQueryEngine ⟨ref, st.llm, s.RETRIEVAL_TOP_K⟩ <;>
      simp [hb, hq, proposedNodeCounts]

/-- C1: in any pipeline state whose query engine has not been constructed,
`query` returns the uninitialized ValueError, leaves the state unchanged,
and produces an empty trace — in particular the query-engine oracle is
never invoked (no network call), for every provider environment. -/
theorem C1_query_uninitialized (env : ExtEnv) (st : PipelineState) (q : String)
    (h : st.query_engine = none) :
    RAGPipeline.query env st q = (Except.error ⟨queryEngineNotInitMsg⟩, st, []) ∧
    ((RAGPipeline.query env st q).2.2.filter Event.isEngineCall).length = 0 := by
  unfold RAGPipeline.query
  rw [h]
  exact ⟨rfl, rfl⟩

/-- C1 witness: a concrete uninitialized state and a live provider. -/
theorem C1_witness :
    freshState.query_engine = none ∧
    (RAGPipeline.query demoEnv freshState "question" =
        (Except.error ⟨queryEngineNotInitMsg⟩, freshState, []) ∧
      ((RAGPipeline.query demoEnv freshState "question").2.2.filter
          Event.isEngineCall).length = 0) :=
  ⟨rfl, C1_query_uninitialized demoEnv freshState "question" rfl⟩

/-- C2: in any pipeline state with no index, `add_documents` returns the
uninitialized ValueError, leaves the state unchanged, and produces an
empty trace — in particular no nodes are split and none are inserted. -/
theorem C2_add_documents_uninitialized (env : ExtEnv) (s : SettingsT)
    (st : PipelineState) (docs : List Document) (h : st.index = none) :
    RAGPipeline.add_documents env s st docs = (Except.error ⟨indexNotInitMsg⟩, st, []) ∧
    ((RAGPipeline.add_documents env s st docs).2.2.filter
        (fun ev => Event.isSplit ev || Event.isInsert ev)).length = 0 := by
  unfold RAGPipeline.add_documents
  rw [h]
  exact ⟨rfl, rfl⟩

/-- C2 witness: a concrete index-less state and a live provider. -/
theorem C2_witness :
    freshState.index = none ∧
    (RAGPipeline.add_documents demoEnv (mkSettings []) freshState [⟨["t"], "d"⟩] =
        (Except.error ⟨indexNotInitMsg⟩, freshState, []) ∧
      ((RAGPipeline.add_documents demoEnv (mkSettings []) freshState
            [⟨["t"], "d"⟩]).2.2.filter
          (fun ev => Event.isSplit ev || Event.isInsert ev)).length = 0) :=
  ⟨rfl, C2_add_documents_uninitialized demoEnv (mkSettings []) freshState [⟨["t"], "d"⟩] rfl⟩

/-- C3: when exactly one of the input paths fails to read, `load_documents`
returns exactly the documents of the succeeding paths in path order and
logs exactly one error; its embedding has no error channel, so it does
not raise. -/
theorem C3_load_documents_partial_failure (env : ExtEnv) (st : PipelineState)
    (paths : List String)
    (h : (paths.filter (fun p => readFails env p)).length = 1) :
    (RAGPipeline.load_documents env st paths).1 = okDocs env paths ∧
    errorLogCount (RAGPipeline.load_documents env st paths).2.2 = 1 := by
  refine ⟨loadLoop_docs env paths, ?_⟩
  show errorLogCount (loadLoop env paths).2 = 1
  rw [loadLoop_errs env paths, h]

/-- C3 witness: two good paths around one failing path. -/
theorem C3_witness :
    (["a", "bad", "b"].filter (fun p => readFails partialEnv p)).length = 1 ∧
    ((RAGPipeline.load_documents partialEnv freshState ["a", "bad", "b"]).1 =
        okDocs partialEnv ["a", "bad", "b"] ∧
      errorLogCount
        (RAGPipeline.load_documents partialEnv freshState ["a", "bad", "b"]).2.2 = 1) :=
  ⟨by decide,
   C3_load_documents_partial_failure partialEnv freshState ["a", "bad", "b"] (by decide)⟩

/-- C9: `load_documents` is total — its embedding returns a plain pair with
no error channel for every input; on the empty path list it returns the
empty document list, and when every path fails to read it also returns
the empty document list. -/
theorem C9_load_documents_total (env : ExtEnv) (st : PipelineState)
    (paths : List String) :
    (RAGPipeline.load_documents env st []).1 = [] ∧
    ((∀ p ∈ paths, readFails env p = true) →
      (RAGPipeline.load_documents env st paths).1 = []) := by
  constructor
  · rfl
  · intro h
    show (loadLoop env paths).1 = []
    rw [loadLoop_docs]
    unfold okDocs
    have hnil : paths.filterMap (readOk env) = [] := by
      rw [List.filterMap_eq_nil_iff]
      intro p hp
      have hf := h p hp
      simpa [readFails, Option.isNone_iff_eq_none] using hf
    rw [hnil]
    rfl

/-- C9 witness: the empty list and an all-failing list of paths. -/
theorem C9_witness :
    (RAGPipeline.load_documents failEnv freshState []).1 = [] ∧
    (RAGPipeline.load_documents failEnv freshState ["a", "b"]).1 = [] :=
  ⟨(C9_load_documents_total failEnv freshState ["a", "b"]).1,
   (C9_load_documents_total failEnv freshState ["a", "b"]).2 (by decide)⟩

lemma query_frame (env : ExtEnv) (st : PipelineState) (q : String) :
    (RAGPipeline.query env st q).2.1 = st := by
  unfold RAGPipeline.query
  cases hq : st.query_engine with
  | none => rfl
  | some eng => cases h2 : env.engineQuery eng q <;> simp [h2]

lemma add_documents_frame (env : ExtEnv) (s : SettingsT) (st : PipelineState)
    (docs : List Document) :
    (RAGPipeline.add_documents env s st docs).2.1 = st := by
  unfold RAGPipeline.add_documents
  cases hi : st.index with
  | none => rfl
  | some ref =>
    cases h2 : env.insertNodes ref (get_nodes_from_documents s.CHUNK_SIZE
      s.CHUNK_OVERLAP docs) <;> simp [h2]

/-- C10: `query` never modifies the pipeline state: whether it raises the
uninitialized error, succeeds, or propagates an engine failure, the index
and query-engine fields (indeed the whole state) after the call equal
those before it. -/
theorem C10_query_state_frame (env : ExtEnv) (st : PipelineState) (q : String) :
    (RAGPipeline.query env st q).2.1 = st :=
  query_frame env st q

/-- C4: for a fixed document list and fixed settings, any two runs of
`create_index` — over arbitrary and possibly different provider
environments and starting states — propose the same number of chunks to
the external indexer: the count is a function of the splitter
configuration and the documents alone. -/
theorem C4_chunk_count_deterministic (env1 env2 : ExtEnv) (s : SettingsT)
    (st1 st2 : PipelineState) (docs : List Document) :
    proposedNodeCounts (RAGPipeline.create_index env1 s st1 docs).2.2 =
      proposedNodeCounts (RAGPipeline.create_index env2 s st2 docs).2.2 := by
  rw [create_index_proposes, create_index_proposes]

/-- A 50-token text document, as in the spec's end-to-end scenario. -/
def doc50 : Document := ⟨List.replicate 50 "tok", "doc1"⟩

/-- A 30-token text document, as in the spec's end-to-end scenario. -/
def doc30 : Document := ⟨List.replicate 30 "tok", "doc2"⟩

/-- C5: under settings constructed from any environment (chunk size 1024,
overlap 20), `create_index` on the 50-token and 30-token documents splits
them into exactly two chunks — one whole-document chunk each — and
proposes exactly 2 nodes to the external indexer, whatever the provider
environment does. -/
theorem C5_two_docs_two_chunks (env : ExtEnv) (e : EnvMap) (st : PipelineState) :
    get_nodes_from_documents (mkSettings e).CHUNK_SIZE (mkSettings e).CHUNK_OVERLAP
        [doc50, doc30] =
      [⟨doc50.tokens, "doc1"⟩, ⟨doc30.tokens, "doc2"⟩] ∧
    proposedNodeCounts
        (RAGPipeline.create_index env (mkSettings e) st [doc50, doc30]).2.2 = [2] := by
  constructor
  · rfl
  · rw [create_index_proposes]
    rfl

lemma applyEnvChanges_settings (changes : List (String × String)) :
    ∀ p : Proc, (applyEnvChanges p changes).settings = p.settings := by
  induction changes with
  | nil => intro p; rfl
  | cons c rest ih => intro p; exact ih (setEnvVar p c.1 c.2)

/-- C6: the settings instance is built from the environment exactly once,
at startup; afterwards every field of the already-constructed instance is
unchanged by any sequence of environment mutations: it still equals the
instance computed from the startup environment snapshot. -/
theorem C6_settings_immutable (e : EnvMap) (changes : List (String × String)) :
    (startup e).settings = mkSettings e ∧
    (applyEnvChanges (startup e) changes).settings = mkSettings e :=
  ⟨rfl, applyEnvChanges_settings changes (startup e)⟩

/-- C7: every failure of an external call inside `create_index`, inside
`query` once its precondition holds, and inside `add_documents` once its
precondition holds, is logged as an error and the very same exception is
re-raised to the caller — never swallowed. -/
theorem C7_failures_logged_and_reraised :
    (∀ (env : ExtEnv) (s : SettingsT) (st : PipelineState) (docs : List Document)
        (e : PyErr),
      env.buildIndex (get_nodes_from_documents s.CHUNK_SIZE s.CHUNK_OVERLAP docs) =
          Except.error e →
        (RAGPipeline.create_index env s st docs).1 = Except.error e ∧
        0 < errorLogCount (RAGPipeline.create_index env s st docs).2.2) ∧
    (∀ (env : ExtEnv) (st : PipelineState) (q : String) (eng : Engine) (e : PyErr),
      st.query_engine = some eng → env.engineQuery eng q = Except.error e →
        (RAGPipeline.query env st q).1 = Except.error e ∧
        0 < errorLogCount (RAGPipeline.query env st q).2.2) ∧
    (∀ (env : ExtEnv) (s : SettingsT) (st : PipelineState) (docs : List Document)
        (ref : Nat) (e : PyErr),
      st.index = some ref →
      env.insertNodes ref (get_nodes_from_documents s.CHUNK_SIZE s.CHUNK_OVERLAP docs) =
          Except.error e →
        (RAGPipeline.add_documents env s st docs).1 = Except.error e ∧
        0 < errorLogCount (RAGPipeline.add_documents env s st docs).2.2) ∧
    (∀ (env : ExtEnv) (s : SettingsT) (st : PipelineState) (docs : List Document)
        (ref : Nat) (e : PyErr),
      env.buildIndex (get_nodes_from_documents s.CHUNK_SIZE s.CHUNK_OVERLAP docs) =
          Except.ok ref →
      env.asQueryEngine ⟨ref, st.llm, s.RETRIEVAL_TOP_K⟩ = Except.error e →
        (RAGPipeline.create_index env s st docs).1 = Except.error e ∧
        0 < errorLogCount (RAGPipeline.create_index env s st docs).2.2) := by
  refine ⟨?_, ?_, ?_, ?_⟩
  · intro env s st docs e h
    unfold RAGPipeline.create_index
    simp [h, errorLogCount, Event.isErrLog]
  · intro env st q eng e hq he
    unfold RAGPipeline.query
    rw [hq]
    simp [he, errorLogCount, Event.isErrLog]
  · intro env s st docs ref e hi he
    unfold RAGPipeline.add_documents
    rw [hi]
    simp [he, errorLogCount, Event.isErrLog]
  · intro env s st docs ref e hb he
    unfold RAGPipeline.create_index
    simp [hb, he, errorLogCount, Event.isErrLog]

/-- C7 witness: concrete failing oracles for all three operations, in a
state whose preconditions hold. -/
theorem C7_witness :
    ((RAGPipeline.create_index failEnv (mkSettings []) readyState [doc50]).1 =
        Except.error ⟨"embed boom"⟩ ∧
      0 < errorLogCount
          (RAGPipeline.create_index failEnv (mkSettings []) readyState [doc50]).2.2) ∧
    ((RAGPipeline.query failEnv readyState "q").1 = Except.error ⟨"llm boom"⟩ ∧
      0 < errorLogCount (RAGPipeline.query failEnv readyState "q").2.2) ∧
    ((RAGPipeline.add_documents failEnv (mkSettings []) readyState [doc50]).1 =
        Except.error ⟨"insert boom"⟩ ∧
      0 < errorLogCount
          (RAGPipeline.add_documents failEnv (mkSettings []) readyState [doc50]).2.2) ∧
    ((RAGPipeline.create_index engineFailEnv (mkSettings []) readyState [doc50]).1 =
        Except.error ⟨"engine boom"⟩ ∧
      0 < errorLogCount
          (RAGPipeline.create_index engineFailEnv (mkSettings []) readyState [doc50]).2.2) :=
  ⟨C7_failures_logged_and_reraised.1 failEnv (mkSettings []) readyState [doc50]
      ⟨"embed boom"⟩ rfl,
   C7_failures_logged_and_reraised.2.1 failEnv readyState "q" ⟨0, freshState.llm, 3⟩
      ⟨"llm boom"⟩ rfl rfl,
   C7_failures_logged_and_reraised.2.2.1 failEnv (mkSettings []) readyState [doc50] 0
      ⟨"insert boom"⟩ rfl rfl,
   C7_failures_logged_and_reraised.2.2.2 engineFailEnv (mkSettings []) readyState [doc50] 1
      ⟨"engine boom"⟩ rfl rfl⟩

/-- C8 counterexample: the invariant is not preserved by `create_index`.
From the concrete state left by an earlier successful `create_index`
(index 0, engine bound to index 0) — which satisfies the invariant — a
run in which the index build succeeds (yielding index 1) and
`as_query_engine` then raises leaves the index field reassigned to 1
while the query-engine field still holds the engine bound to index 0:
the invariant is violated. -/
theorem C8_stale_engine_counterexample :
    engineInvB (mkSettings []) readyState = true ∧
    engineInvB (mkSettings [])
      (RAGPipeline.create_index engineFailEnv (mkSettings [])
        readyState [doc50]).2.1 = false ∧
    (RAGPipeline.create_index engineFailEnv (mkSettings [])
        readyState [doc50]).2.1.index = some 1 ∧
    (RAGPipeline.create_index engineFailEnv (mkSettings [])
        readyState [doc50]).2.1.query_engine = some ⟨0, freshState.llm, 3⟩ := by
  refine ⟨by decide, by decide, rfl, rfl⟩

/-- C8 (amended): the engine/index consistency invariant — a set query
engine implies a set index, with the engine bound to that very index and
carrying the configured retrieval top-k — is established by `__init__`
and preserved by `load_documents`, `query`, and `add_documents`
unconditionally, and by `create_index` provided the query-engine
construction does not fail after a successful index build (on that
failure path the index is reassigned while the engine stays stale, as
the counterexample shows). -/
theorem C8_engine_index_invariant (s : SettingsT) :
    engineInvB s (RAGPipeline.init s) = true ∧
    (∀ (env : ExtEnv) (st : PipelineState) (paths : List String),
      engineInvB s st = true →
        engineInvB s (RAGPipeline.load_documents env st paths).2.1 = true) ∧
    (∀ (env : ExtEnv) (st : PipelineState) (docs : List Document),
      engineInvB s st = true →
      (∀ ref : Nat,
        env.buildIndex (get_nodes_from_documents s.CHUNK_SIZE s.CHUNK_OVERLAP docs) =
            Except.ok ref →
          env.asQueryEngine ⟨ref, st.llm, s.RETRIEVAL_TOP_K⟩ = Except.ok ()) →
        engineInvB s (RAGPipeline.create_index env s st docs).2.1 = true) ∧
    (∀ (env : ExtEnv) (st : PipelineState) (q : String),
      engineInvB s st = true →
        engineInvB s (RAGPipeline.query env st q).2.1 = true) ∧
    (∀ (env : ExtEnv) (st : PipelineState) (docs : List Document),
      engineInvB s st = true →
        engineInvB s (RAGPipeline.add_documents env s st docs).2.1 = true) := by
  refine ⟨rfl, ?_, ?_, ?_, ?_⟩
  · intro env st paths h
    exact h
  · intro env st docs h hq
    unfold RAGPipeline.create_index
    cases hb : env.buildIndex (get_nodes_from_documents s.CHUNK_SIZE
        s.CHUNK_OVERLAP docs) with
    | error e => simpa [hb] using h
    | ok ref =>
      have hq2 := hq ref hb
      simp [hb, hq2, engineInvB]
  · intro env st q h
    rw [query_frame]
    exact h
  · intro env st docs h
    rw [add_documents_frame]
    exact h

/-- C8 witness: the invariant holds of a concrete post-create state and is
preserved there by a concrete `create_index` whose engine construction
succeeds, and by a concrete query. -/
theorem C8_witness :
    engineInvB (mkSettings []) readyState = true ∧
    engineInvB (mkSettings [])
      (RAGPipeline.create_index demoEnv (mkSettings []) readyState [doc50]).2.1 = true ∧
    engineInvB (mkSettings [])
      (RAGPipeline.query demoEnv readyState "q").2.1 = true :=
  ⟨by decide,
   (C8_engine_index_invariant (mkSettings [])).2.2.1 demoEnv readyState [doc50]
     (by decide) (fun ref _ => rfl),
   (C8_engine_index_invariant (mkSettings [])).2.2.2.1 demoEnv readyState "q" (by decide)⟩

end LlamaRag
